import Mathlib

/-!
Shallow embedding of the download lifecycle state machine of
src/chromium/src/content/browser/download/download_item_impl.cc
(class content::DownloadItemImpl).

Each Lean definition is translated from the C++ member function of the
same name.  Machine integers (int64, int) are modelled as Int / Nat;
base::FilePath is modelled as a list of path components, so that
DirName is dropLast and empty() is the empty list.  Side effects that
leave the object (posting tasks to the FILE thread, calls on the
request handle, delegate calls, observer notifications) are modelled
as an explicit list of emitted actions returned next to the updated
item state.  DCHECK statements are debug assertions with no release
behaviour; they are not modelled as behaviour (comments note them
where relevant).
-/

namespace Content

/-- Internal state enum of DownloadItemImpl (DownloadInternalState). -/
inductive DownloadInternalState where
  | IN_PROGRESS_INTERNAL
  | COMPLETING_INTERNAL
  | COMPLETE_INTERNAL
  | CANCELLED_INTERNAL
  | INTERRUPTED_INTERNAL
deriving DecidableEq, Repr

/-- Externally visible state enum (DownloadItem::DownloadState). -/
inductive DownloadState where
  | IN_PROGRESS
  | COMPLETE
  | CANCELLED
  | INTERRUPTED
deriving DecidableEq, Repr

open DownloadInternalState DownloadState

/-- DownloadItemImpl::InternalToExternalState: COMPLETING collapses to
IN_PROGRESS, every other internal state maps to its namesake. -/
def InternalToExternalState : DownloadInternalState → DownloadState
  | IN_PROGRESS_INTERNAL => IN_PROGRESS
  | COMPLETING_INTERNAL => IN_PROGRESS
  | COMPLETE_INTERNAL => COMPLETE
  | CANCELLED_INTERNAL => CANCELLED
  | INTERRUPTED_INTERNAL => INTERRUPTED

/-- DownloadItemImpl::ExternalToInternalState (used by the history
constructor; the default branch is NOTREACHED). -/
def ExternalToInternalState : DownloadState → DownloadInternalState
  | IN_PROGRESS => IN_PROGRESS_INTERNAL
  | COMPLETE => COMPLETE_INTERNAL
  | CANCELLED => CANCELLED_INTERNAL
  | INTERRUPTED => INTERRUPTED_INTERNAL

/-- The DownloadInterruptReason values named in this file (the switch in
GetResumeMode enumerates exactly these). -/
inductive DownloadInterruptReason where
  | NONE
  | FILE_TRANSIENT_ERROR
  | NETWORK_TIMEOUT
  | SERVER_PRECONDITION
  | SERVER_NO_RANGE
  | FILE_TOO_SHORT
  | NETWORK_FAILED
  | NETWORK_DISCONNECTED
  | NETWORK_SERVER_DOWN
  | SERVER_FAILED
  | USER_SHUTDOWN
  | CRASH
  | FILE_FAILED
  | FILE_ACCESS_DENIED
  | FILE_NO_SPACE
  | FILE_NAME_TOO_LONG
  | FILE_TOO_LARGE
  | FILE_VIRUS_INFECTED
  | SERVER_BAD_CONTENT
  | USER_CANCELED
  | FILE_BLOCKED
  | FILE_SECURITY_CHECK_FAILED
deriving DecidableEq, Repr

/-- DownloadItemImpl::ResumeMode. -/
inductive ResumeMode where
  | RESUME_MODE_INVALID
  | RESUME_MODE_IMMEDIATE_CONTINUE
  | RESUME_MODE_IMMEDIATE_RESTART
  | RESUME_MODE_USER_CONTINUE
  | RESUME_MODE_USER_RESTART
deriving DecidableEq, Repr

open DownloadInterruptReason ResumeMode

/-- content::DownloadDangerType. -/
inductive DownloadDangerType where
  | NOT_DANGEROUS
  | DANGEROUS_FILE
  | DANGEROUS_URL
  | DANGEROUS_CONTENT
  | UNCOMMON_CONTENT
  | DANGEROUS_HOST
  | USER_VALIDATED
deriving DecidableEq, Repr

/-- DownloadItem::TargetDisposition. -/
inductive TargetDisposition where
  | TARGET_DISPOSITION_OVERWRITE
  | TARGET_DISPOSITION_PROMPT
deriving DecidableEq, Repr

/-- base::FilePath, modelled as its list of path components: empty()
is the empty list and DirName() drops the last component. -/
abbrev FilePath := List String

/-- base::FilePath::DirName. -/
def FilePath.dirName (p : FilePath) : FilePath := p.dropLast

/-- base::FilePath::empty. -/
def FilePath.isEmpty (p : FilePath) : Bool := List.isEmpty p

/-- The mutable fields of DownloadItemImpl that the modelled member
functions read or write. -/
structure DownloadItem where
  is_save_package_download : Bool
  current_path : FilePath
  target_path : FilePath
  target_disposition : TargetDisposition
  total_bytes : Int
  received_bytes : Int
  bytes_per_sec : Int
  hash : String
  hash_state : String
  last_modified_time : String
  etag : String
  last_reason : DownloadInterruptReason
  state : DownloadInternalState
  danger_type : DownloadDangerType
  end_time : Int
  is_paused : Bool
  auto_resume_count : Nat
  open_when_complete : Bool
  file_externally_removed : Bool
  auto_opened : Bool
  is_temporary : Bool
  all_data_saved : Bool
  opened : Bool
  delegate_delayed_complete : Bool
  has_download_file : Bool
deriving DecidableEq, Repr

/-- DownloadItemImpl::kMaxAutoResumeAttempts = 5. -/
def kMaxAutoResumeAttempts : Nat := 5

/-- Side effects that leave the item: tasks posted to the FILE thread,
calls on the request handle, delegate calls, observer notifications. -/
inductive Action where
  | PauseRequest
  | ResumeRequest
  | CancelRequest
  | FileInitialize
  | FileCancel
  | FileDetach
  | FileRenameAndUniquify
  | FileRenameAndAnnotate
  | DelegateResume
  | DetermineTarget
  | ShowInBrowser
  | CheckFileRemoval
  | DelegateOpen
  | ObserverUpdate
  | ObserverOpened
deriving DecidableEq, Repr

/-- The per-call environment: the answers the shared process state and
the delegate give while one member function runs. -/
structure Env where
  resumption_enabled : Bool
  has_web_contents : Bool
  should_complete_download : Bool
  should_open_download : Bool
  should_open_file_based_on_extension : Bool
  now : Int
deriving DecidableEq, Repr

/-- DownloadItemImpl::IsInterrupted (external state probe). -/
def DownloadItem.IsInterrupted (d : DownloadItem) : Bool :=
  InternalToExternalState d.state == INTERRUPTED

/-- DownloadItemImpl::IsInProgress (external state probe). -/
def DownloadItem.IsInProgress (d : DownloadItem) : Bool :=
  InternalToExternalState d.state == IN_PROGRESS

/-- DownloadItemImpl::GetResumeMode (download_item_impl.cc lines
794..862): INVALID unless interrupted; otherwise the switch over
last_reason with force_restart = current_path empty and force_user =
auto_resume_count at the cap or paused. -/
def getResumeMode (d : DownloadItem) : ResumeMode :=
  if !d.IsInterrupted then RESUME_MODE_INVALID
  else
    let force_restart := d.current_path.isEmpty
    let force_user := decide (kMaxAutoResumeAttempts ≤ d.auto_resume_count) || d.is_paused
    match d.last_reason with
    | FILE_TRANSIENT_ERROR | NETWORK_TIMEOUT =>
        if force_restart && force_user then RESUME_MODE_USER_RESTART
        else if force_restart then RESUME_MODE_IMMEDIATE_RESTART
        else if force_user then RESUME_MODE_USER_CONTINUE
        else RESUME_MODE_IMMEDIATE_CONTINUE
    | SERVER_PRECONDITION | SERVER_NO_RANGE | FILE_TOO_SHORT =>
        if force_user then RESUME_MODE_USER_RESTART
        else RESUME_MODE_IMMEDIATE_RESTART
    | NETWORK_FAILED | NETWORK_DISCONNECTED | NETWORK_SERVER_DOWN
    | SERVER_FAILED | USER_SHUTDOWN | CRASH =>
        if force_restart then RESUME_MODE_USER_RESTART
        else RESUME_MODE_USER_CONTINUE
    | FILE_FAILED | FILE_ACCESS_DENIED | FILE_NO_SPACE
    | FILE_NAME_TOO_LONG | FILE_TOO_LARGE =>
        RESUME_MODE_USER_RESTART
    | NONE | FILE_VIRUS_INFECTED | SERVER_BAD_CONTENT
    | USER_CANCELED | FILE_BLOCKED | FILE_SECURITY_CHECK_FAILED =>
        RESUME_MODE_INVALID

/-- DownloadItemImpl::TransitionTo (lines 1455..1523): a no-op when the
target equals the current state; otherwise stores the new state and
notifies observers only when the externally visible state changes
(NetLog events are not modelled). -/
def transitionTo (d : DownloadItem) (new_state : DownloadInternalState) :
    DownloadItem × List Action :=
  if d.state = new_state then (d, [])
  else if InternalToExternalState new_state = InternalToExternalState d.state then
    ({ d with state := new_state }, [])
  else
    ({ d with state := new_state }, [Action.ObserverUpdate])

/-- DownloadItemImpl::CancelDownloadFile (lines 1405..1418): posts a
cancel-and-delete of the download file when the item is not a save
package download and still holds the file; posting moves the file out
of the item. -/
def cancelDownloadFile (d : DownloadItem) : DownloadItem × List Action :=
  if !d.is_save_package_download && d.has_download_file then
    ({ d with has_download_file := false }, [Action.FileCancel])
  else
    (d, [])

/-- DownloadItemImpl::SetFullPath (lines 1534..1547): records the new
current path and notifies observers. -/
def setFullPath (d : DownloadItem) (new_path : FilePath) :
    DownloadItem × List Action :=
  ({ d with current_path := new_path }, [Action.ObserverUpdate])

/-- DownloadItemImpl::SetDangerType (lines 1525..1532): stores the new
danger type (the NetLog event is not modelled). -/
def setDangerType (d : DownloadItem) (danger : DownloadDangerType) : DownloadItem :=
  { d with danger_type := danger }

/-- DownloadItemImpl::IsDangerous (lines 598..611), the OS_WIN branch of
the ifdef (the other branch keeps only DANGEROUS_FILE and
DANGEROUS_URL); USER_VALIDATED is not dangerous in either branch. -/
def isDangerous (d : DownloadItem) : Bool :=
  d.danger_type == DownloadDangerType.DANGEROUS_FILE ||
  d.danger_type == DownloadDangerType.DANGEROUS_URL ||
  d.danger_type == DownloadDangerType.DANGEROUS_CONTENT ||
  d.danger_type == DownloadDangerType.UNCOMMON_CONTENT ||
  d.danger_type == DownloadDangerType.DANGEROUS_HOST

/-- DownloadItemImpl::ResumeInterruptedDownload (lines 864..909):
ignored when the resumption switch is off or no web contents is
available; resets received bytes, hash state and validators when the
mode restarts from scratch; rebuilds the request parameters and hands
off to the delegate; finally clears the paused flag. -/
def resumeInterruptedDownload (env : Env) (d : DownloadItem) :
    DownloadItem × List Action :=
  if !env.resumption_enabled then (d, [])
  else if !env.has_web_contents then (d, [])
  else
    let mode := getResumeMode d
    let d1 :=
      if mode = RESUME_MODE_IMMEDIATE_RESTART ∨ mode = RESUME_MODE_USER_RESTART then
        { d with received_bytes := 0, hash_state := "",
                 last_modified_time := "", etag := "" }
      else d
    ({ d1 with is_paused := false }, [Action.DelegateResume])

/-- DownloadItemImpl::AutoResumeIfValid (lines 1549..1562): only the
two immediate modes act; the auto resume counter is incremented before
the resumption procedure runs. -/
def autoResumeIfValid (env : Env) (d : DownloadItem) :
    DownloadItem × List Action :=
  let mode := getResumeMode d
  if mode ≠ RESUME_MODE_IMMEDIATE_RESTART ∧ mode ≠ RESUME_MODE_IMMEDIATE_CONTINUE then
    (d, [])
  else
    resumeInterruptedDownload env { d with auto_resume_count := d.auto_resume_count + 1 }

/-- DownloadItemImpl::Interrupt (lines 1365..1403): the first interrupt
wins (no-op outside IN_PROGRESS); records the reason, transitions to
INTERRUPTED, deletes the file on a restart mode and detaches it
otherwise, cancels the originating request, then tries an automatic
resumption. -/
def Interrupt (env : Env) (d : DownloadItem) (reason : DownloadInterruptReason) :
    DownloadItem × List Action :=
  if d.state ≠ IN_PROGRESS_INTERNAL then (d, [])
  else
    let p1 := transitionTo { d with last_reason := reason } INTERRUPTED_INTERNAL
    let resume_mode := getResumeMode p1.1
    let p2 :=
      if resume_mode = RESUME_MODE_IMMEDIATE_RESTART ∨
         resume_mode = RESUME_MODE_USER_RESTART then
        cancelDownloadFile p1.1
      else
        ({ p1.1 with has_download_file := false }, [Action.FileDetach])
    let p3 := autoResumeIfValid env p2.1
    (p3.1, p1.2 ++ p2.2 ++ [Action.CancelRequest] ++ p3.2)

/-- DownloadItemImpl::Cancel (lines 349..374): ignored outside
IN_PROGRESS and INTERRUPTED; records the cancellation reason, discards
the download file, cancels the request unless an interrupt already
did, and transitions to CANCELLED. -/
def Cancel (d : DownloadItem) (user_cancel : Bool) : DownloadItem × List Action :=
  if d.state ≠ IN_PROGRESS_INTERNAL ∧ d.state ≠ INTERRUPTED_INTERNAL then (d, [])
  else
    let d1 := { d with last_reason :=
      if user_cancel then USER_CANCELED else USER_SHUTDOWN }
    let p2 := cancelDownloadFile d1
    let a3 := if d.state ≠ INTERRUPTED_INTERNAL then [Action.CancelRequest] else []
    let p4 := transitionTo p2.1 CANCELLED_INTERNAL
    (p4.1, p2.2 ++ a3 ++ p4.2)

/-- DownloadItemImpl::Pause (lines 317..327). -/
def Pause (d : DownloadItem) : DownloadItem × List Action :=
  if d.state ≠ IN_PROGRESS_INTERNAL ∨ d.is_paused then (d, [])
  else
    ({ d with is_paused := true },
     [Action.PauseRequest, Action.ObserverUpdate])

/-- DownloadItemImpl::Resume (lines 329..347): guarded by the paused
flag and the COMPLETE and COMPLETING states; an INTERRUPTED item has
its auto resume counter reset before the resumption procedure; the
fall-through branch carries a DCHECK that the state is IN_PROGRESS,
which the code does not enforce in release builds. -/
def Resume (env : Env) (d : DownloadItem) : DownloadItem × List Action :=
  if d.state = COMPLETE_INTERNAL ∨ d.state = COMPLETING_INTERNAL ∨ !d.is_paused then
    (d, [])
  else if d.state = INTERRUPTED_INTERNAL then
    resumeInterruptedDownload env { d with auto_resume_count := 0 }
  else
    ({ d with is_paused := false },
     [Action.ResumeRequest, Action.ObserverUpdate])

/-- DownloadItemImpl::UpdateProgress (lines 937..972): ignored unless
the internal state is IN_PROGRESS; updates rate, hash state and
received bytes and falls back to unknown size when the received bytes
exceed the expected total. -/
def updateProgress (d : DownloadItem) (bytes_so_far bytes_per_sec : Int)
    (hash_state : String) : DownloadItem × List Action :=
  if d.state ≠ IN_PROGRESS_INTERNAL then (d, [])
  else
    let d1 := { d with bytes_per_sec := bytes_per_sec, hash_state := hash_state,
                       received_bytes := bytes_so_far }
    let d2 := if d1.total_bytes < d1.received_bytes then { d1 with total_bytes := 0 } else d1
    (d2, [Action.ObserverUpdate])

/-- DownloadItemImpl::DestinationUpdate (lines 996..1030): same body as
UpdateProgress but guarded by the externally visible IN_PROGRESS state
(which also covers COMPLETING). -/
def destinationUpdate (d : DownloadItem) (bytes_so_far bytes_per_sec : Int)
    (hash_state : String) : DownloadItem × List Action :=
  if !d.IsInProgress then (d, [])
  else
    let d1 := { d with bytes_per_sec := bytes_per_sec, hash_state := hash_state,
                       received_bytes := bytes_so_far }
    let d2 := if d1.total_bytes < d1.received_bytes then { d1 with total_bytes := 0 } else d1
    (d2, [Action.ObserverUpdate])

/-- DownloadItemImpl::OnAllDataSaved (lines 974..987): sets
all_data_saved, stores the final hash and clears the serialized hash
state (its DCHECKs - state IN_PROGRESS and flag currently false - are
debug assertions, not release behaviour). -/
def onAllDataSaved (d : DownloadItem) (final_hash : String) :
    DownloadItem × List Action :=
  ({ d with all_data_saved := true, hash := final_hash, hash_state := "" },
   [Action.ObserverUpdate])

/-- DownloadItemImpl::MarkAsComplete (lines 989..995). -/
def markAsComplete (env : Env) (d : DownloadItem) : DownloadItem × List Action :=
  let d1 := { d with end_time := env.now }
  transitionTo d1 COMPLETE_INTERNAL

/-- DownloadItemImpl::IsDownloadReadyForCompletion (lines 1420..1453):
all data saved, not dangerous, internal state IN_PROGRESS, target path
known, target and current path in the same directory, and the delegate
completion gate open. -/
def isDownloadReadyForCompletion (env : Env) (d : DownloadItem) : Bool :=
  if !d.all_data_saved then false
  else if isDangerous d then false
  else if d.state ≠ IN_PROGRESS_INTERNAL then false
  else if d.target_path.isEmpty then false
  else if d.target_path.dirName ≠ d.current_path.dirName then false
  else if !env.should_complete_download then false
  else true

/-- DownloadItemImpl::OpenDownload (lines 418..441). -/
def openDownload (d : DownloadItem) : DownloadItem × List Action :=
  if d.state = IN_PROGRESS_INTERNAL then
    (if !d.is_temporary then
       ({ d with open_when_complete := !d.open_when_complete }, [])
     else (d, []))
  else if d.state ≠ COMPLETE_INTERNAL ∨ d.file_externally_removed then (d, [])
  else
    ({ d with opened := true },
     [Action.CheckFileRemoval, Action.ObserverOpened, Action.DelegateOpen])

/-- DownloadItemImpl::Completed (lines 1336..1360): records the end
time, transitions to COMPLETE and applies the auto-open policy
(temporary files are marked auto-opened without being opened). -/
def completed (env : Env) (d : DownloadItem) : DownloadItem × List Action :=
  let p1 := transitionTo { d with end_time := env.now } COMPLETE_INTERNAL
  let d1 := p1.1
  if d1.auto_opened then (d1, p1.2)
  else if d1.open_when_complete || env.should_open_file_based_on_extension ||
          d1.is_temporary then
    let p2 := if !d1.is_temporary then openDownload d1 else (d1, [])
    ({ p2.1 with auto_opened := true }, p1.2 ++ p2.2 ++ [Action.ObserverUpdate])
  else (d1, p1.2)

/-- DownloadItemImpl::DelayedDownloadOpened (lines 1329..1334). -/
def delayedDownloadOpened (env : Env) (d : DownloadItem) (auto_opened : Bool) :
    DownloadItem × List Action :=
  completed env { d with auto_opened := auto_opened }

/-- DownloadItemImpl::OnDownloadCompleting (lines 1244..1277): no-op
outside internal IN_PROGRESS; save package downloads complete
directly, the rest request the final rename-and-annotate. -/
def onDownloadCompleting (env : Env) (d : DownloadItem) :
    DownloadItem × List Action :=
  if d.state ≠ IN_PROGRESS_INTERNAL then (d, [])
  else if d.is_save_package_download then completed env d
  else (d, [Action.FileRenameAndAnnotate])

/-- DownloadItemImpl::MaybeCompleteDownload (lines 1220..1240):
idempotent gate; proceeds to OnDownloadCompleting only when
IsDownloadReadyForCompletion holds. -/
def maybeCompleteDownload (env : Env) (d : DownloadItem) :
    DownloadItem × List Action :=
  if !isDownloadReadyForCompletion env d then (d, [])
  else onDownloadCompleting env d

/-- DownloadItemImpl::DangerousDownloadValidated (lines 292..315):
no-op unless the externally visible state is IN_PROGRESS; reclassifies
the danger type to USER_VALIDATED, notifies observers and re-attempts
completion. -/
def dangerousDownloadValidated (env : Env) (d : DownloadItem) :
    DownloadItem × List Action :=
  if InternalToExternalState d.state ≠ IN_PROGRESS then (d, [])
  else
    let d1 := { d with danger_type := DownloadDangerType.USER_VALIDATED }
    let p2 := maybeCompleteDownload env d1
    (p2.1, Action.ObserverUpdate :: p2.2)

/-- DownloadItemImpl::OnDownloadRenamedToFinalName (lines 1279..1327):
no-op outside internal IN_PROGRESS; interrupts on a rename failure;
otherwise updates the current path when it changed, detaches the
download file, transitions to COMPLETING and either completes or waits
for the delegate delayed-open callback. -/
def onDownloadRenamedToFinalName (env : Env) (d : DownloadItem)
    (reason : DownloadInterruptReason) (full_path : FilePath) :
    DownloadItem × List Action :=
  if d.state ≠ IN_PROGRESS_INTERNAL then (d, [])
  else if reason ≠ NONE then Interrupt env d reason
  else
    let p1 := if full_path ≠ d.current_path then setFullPath d full_path else (d, [])
    let d1 := { p1.1 with has_download_file := false }
    let p2 := transitionTo d1 COMPLETING_INTERNAL
    if env.should_open_download then
      let p3 := completed env p2.1
      (p3.1, p1.2 ++ [Action.FileDetach] ++ p2.2 ++ p3.2)
    else
      ({ p2.1 with delegate_delayed_complete := true },
       p1.2 ++ [Action.FileDetach] ++ p2.2)

/-- DownloadItemImpl::OnDownloadRenamedToIntermediateName (lines
1197..1209): interrupts on failure or records the new current path,
shows the download in the browser, then retries the completion
gate. -/
def onDownloadRenamedToIntermediateName (env : Env) (d : DownloadItem)
    (reason : DownloadInterruptReason) (full_path : FilePath) :
    DownloadItem × List Action :=
  let p1 := if reason ≠ NONE then Interrupt env d reason else setFullPath d full_path
  let p2 := maybeCompleteDownload env p1.1
  (p2.1, p1.2 ++ [Action.ShowInBrowser] ++ p2.2)

/-- DownloadItemImpl::OnDownloadTargetDetermined (lines 1144..1195): an
empty target path means cancellation; otherwise records target path,
disposition and danger type and requests the intermediate rename. -/
def onDownloadTargetDetermined (d : DownloadItem) (target : FilePath)
    (disposition : TargetDisposition) (danger : DownloadDangerType) :
    DownloadItem × List Action :=
  if target.isEmpty then Cancel d true
  else
    let d1 := setDangerType { d with target_path := target,
                                     target_disposition := disposition } danger
    (d1, [Action.FileRenameAndUniquify])

/-- DownloadItemImpl::OnDownloadFileInitialized (lines 1110..1140):
interrupts on an initialization failure but continues the cascade
regardless; skips target determination when target and current path
are already known. -/
def onDownloadFileInitialized (env : Env) (d : DownloadItem)
    (result : DownloadInterruptReason) : DownloadItem × List Action :=
  let p1 := if result ≠ NONE then Interrupt env d result else (d, [])
  if !p1.1.target_path.isEmpty && !p1.1.current_path.isEmpty then
    let p2 := maybeCompleteDownload env p1.1
    (p2.1, p1.2 ++ [Action.ShowInBrowser] ++ p2.2)
  else
    ({ p1.1 with target_path := [] }, p1.2 ++ [Action.DetermineTarget])

/-- DownloadItemImpl::Start (lines 1086..1108): takes ownership of the
download file and request handle, transitions to IN_PROGRESS, clears
the last interrupt reason and posts the file initialization. -/
def Start (d : DownloadItem) : DownloadItem × List Action :=
  let d1 := { d with has_download_file := true }
  let p2 := transitionTo d1 IN_PROGRESS_INTERNAL
  ({ p2.1 with last_reason := NONE }, p2.2 ++ [Action.FileInitialize])

/-- DownloadItemImpl::DestinationError (lines 1032..1036). -/
def destinationError (env : Env) (d : DownloadItem)
    (reason : DownloadInterruptReason) : DownloadItem × List Action :=
  Interrupt env d reason

/-- DownloadItemImpl::DestinationCompleted (lines 1038..1044). -/
def destinationCompleted (env : Env) (d : DownloadItem) (final_hash : String) :
    DownloadItem × List Action :=
  if !d.IsInProgress then (d, [])
  else
    let p1 := onAllDataSaved d final_hash
    let p2 := maybeCompleteDownload env p1.1
    (p2.1, p1.2 ++ p2.2)

/-- DownloadItemImpl::SetTotalBytes (lines 930..932). -/
def setTotalBytes (d : DownloadItem) (total_bytes : Int) : DownloadItem :=
  { d with total_bytes := total_bytes }

/-- DownloadItemImpl::OnContentCheckCompleted (lines 709..716). -/
def onContentCheckCompleted (d : DownloadItem) (danger : DownloadDangerType) :
    DownloadItem × List Action :=
  (setDangerType d danger, [Action.ObserverUpdate])

/-- DownloadItemImpl::OnDownloadedFileRemoved (lines 915..919). -/
def onDownloadedFileRemoved (d : DownloadItem) : DownloadItem × List Action :=
  ({ d with file_externally_removed := true }, [Action.ObserverUpdate])

/-- DownloadItemImpl::CurrentSpeed (lines 630..634): zero while
paused. -/
def currentSpeed (d : DownloadItem) : Int :=
  if d.is_paused then 0 else d.bytes_per_sec

/-- DownloadItemImpl::TimeRemaining (lines 617..628): none models
returning false without writing the output parameter; otherwise the
remaining seconds (total - received) / speed. -/
def timeRemaining (d : DownloadItem) : Option Int :=
  if d.total_bytes ≤ 0 then none
  else if currentSpeed d = 0 then none
  else some ((d.total_bytes - d.received_bytes) / currentSpeed d)

/-- DownloadItemImpl::PercentComplete (lines 636..643): -1 when the
delegate delays completion or the total is unknown.  The C++ computes
the int cast of received * 100.0 / total in double arithmetic;
modelled with integer division, which coincides at the concrete
nonnegative exact values the theorems evaluate it on. -/
def percentComplete (d : DownloadItem) : Int :=
  if d.delegate_delayed_complete ∨ d.total_bytes ≤ 0 then -1
  else d.received_bytes * 100 / d.total_bytes

/-- DownloadItemImpl::Init (lines 1048..1083): the only state effect is
defaulting the target path to the current path. -/
def initItem (d : DownloadItem) : DownloadItem :=
  if d.target_path.isEmpty then { d with target_path := d.current_path } else d

/-- The constructor for a regular download (lines 167..217), with an
empty save-info file path (so the item is not temporary and no path is
forced), followed by Init. -/
def activeItem (total : Int) : DownloadItem :=
  initItem
  { is_save_package_download := false
    current_path := []
    target_path := []
    target_disposition := TargetDisposition.TARGET_DISPOSITION_OVERWRITE
    total_bytes := total
    received_bytes := 0
    bytes_per_sec := 0
    hash := ""
    hash_state := ""
    last_modified_time := ""
    etag := ""
    last_reason := NONE
    state := IN_PROGRESS_INTERNAL
    danger_type := DownloadDangerType.NOT_DANGEROUS
    end_time := 0
    is_paused := false
    auto_resume_count := 0
    open_when_complete := false
    file_externally_removed := false
    auto_opened := false
    is_temporary := false
    all_data_saved := false
    opened := false
    delegate_delayed_complete := false
    has_download_file := false }

/-- The constructor for reading from the history service (lines
113..164): maps the persisted external state in, force-corrects a
persisted IN_PROGRESS to CANCELLED, sets all_data_saved for a
persisted COMPLETE, then runs Init. -/
def historyItem (current target : FilePath) (received total end_time : Int)
    (ext : DownloadState) (danger : DownloadDangerType)
    (reason : DownloadInterruptReason) (opened : Bool) : DownloadItem :=
  let st0 := ExternalToInternalState ext
  let st1 := if st0 = IN_PROGRESS_INTERNAL then CANCELLED_INTERNAL else st0
  initItem
  { is_save_package_download := false
    current_path := current
    target_path := target
    target_disposition := TargetDisposition.TARGET_DISPOSITION_OVERWRITE
    total_bytes := total
    received_bytes := received
    bytes_per_sec := 0
    hash := ""
    hash_state := ""
    last_modified_time := ""
    etag := ""
    last_reason := reason
    state := st1
    danger_type := danger
    end_time := end_time
    is_paused := false
    auto_resume_count := 0
    open_when_complete := false
    file_externally_removed := false
    auto_opened := false
    is_temporary := false
    all_data_saved := st1 = COMPLETE_INTERNAL
    opened := opened
    delegate_delayed_complete := false
    has_download_file := false }

/-- Modelled from the words of the spec, for comparison with
getResumeMode: the decision table of section 4.2 / claim C1, as a
function of the reason, whether an intermediate file exists, and
whether the auto-resume cap is reached or the item is paused. -/
def specResumeModeTable (reason : DownloadInterruptReason)
    (has_file over_cap_or_paused : Bool) : ResumeMode :=
  match reason with
  | FILE_TRANSIENT_ERROR | NETWORK_TIMEOUT =>
      if has_file then
        (if over_cap_or_paused then RESUME_MODE_USER_CONTINUE
         else RESUME_MODE_IMMEDIATE_CONTINUE)
      else
        (if over_cap_or_paused then RESUME_MODE_USER_RESTART
         else RESUME_MODE_IMMEDIATE_RESTART)
  | SERVER_PRECONDITION | SERVER_NO_RANGE | FILE_TOO_SHORT =>
      if over_cap_or_paused then RESUME_MODE_USER_RESTART
      else RESUME_MODE_IMMEDIATE_RESTART
  | NETWORK_FAILED | NETWORK_DISCONNECTED | NETWORK_SERVER_DOWN
  | SERVER_FAILED | USER_SHUTDOWN | CRASH =>
      if has_file then RESUME_MODE_USER_CONTINUE else RESUME_MODE_USER_RESTART
  | FILE_FAILED | FILE_ACCESS_DENIED | FILE_NO_SPACE
  | FILE_NAME_TOO_LONG | FILE_TOO_LARGE =>
      RESUME_MODE_USER_RESTART
  | NONE | FILE_VIRUS_INFECTED | SERVER_BAD_CONTENT
  | USER_CANCELED | FILE_BLOCKED | FILE_SECURITY_CHECK_FAILED =>
      RESUME_MODE_INVALID

/-- C1: for every interrupted download item, GetResumeMode is exactly
the decision table of the spec, as a function of last_reason, whether
an intermediate file path exists, and whether the auto-resume counter
reached the cap of 5 or the item is paused. -/
theorem C1_resume_mode_matches_spec_table (d : DownloadItem)
    (h : d.state = INTERRUPTED_INTERNAL) :
    getResumeMode d =
      specResumeModeTable d.last_reason (!FilePath.isEmpty d.current_path)
        (decide (kMaxAutoResumeAttempts ≤ d.auto_resume_count) || d.is_paused) := by
  unfold getResumeMode
  simp only [DownloadItem.IsInterrupted, h, InternalToExternalState]
  cases hr : d.last_reason <;>
    cases hf : FilePath.isEmpty d.current_path <;>
      cases hu : (decide (kMaxAutoResumeAttempts ≤ d.auto_resume_count) || d.is_paused) <;>
        simp [specResumeModeTable, hf, hu, FilePath.isEmpty]

/-- Witness for C1 at a concrete interrupted item. -/
theorem C1_resume_mode_matches_spec_table_witness :
    getResumeMode { activeItem 100 with state := INTERRUPTED_INTERNAL,
                                        last_reason := NETWORK_TIMEOUT } =
      RESUME_MODE_IMMEDIATE_RESTART := by
  have h := C1_resume_mode_matches_spec_table
    { activeItem 100 with state := INTERRUPTED_INTERNAL,
                          last_reason := NETWORK_TIMEOUT } rfl
  rw [h]
  decide

/-- C9: when the state is not INTERRUPTED, GetResumeMode is INVALID
whatever last_reason, the current path, the auto-resume counter and
the paused flag hold: the decision also depends on the state, not only
on the four inputs of the spec table. -/
theorem C9_resume_mode_invalid_outside_interrupted (d : DownloadItem)
    (h : d.state ≠ INTERRUPTED_INTERNAL) :
    getResumeMode d = RESUME_MODE_INVALID := by
  unfold getResumeMode
  cases hs : d.state <;> simp_all [DownloadItem.IsInterrupted, InternalToExternalState]

/-- Witness for C9 at a concrete in-progress item. -/
theorem C9_resume_mode_invalid_outside_interrupted_witness :
    getResumeMode { activeItem 100 with last_reason := NETWORK_TIMEOUT } =
      RESUME_MODE_INVALID :=
  C9_resume_mode_invalid_outside_interrupted
    { activeItem 100 with last_reason := NETWORK_TIMEOUT } (by decide)

/-- C10: TimeRemaining reports no estimate (and leaves its output
untouched, modelled by none) whenever the total is unknown or the
current speed is zero, so its division is always guarded; and since
CurrentSpeed is zero for a paused item whatever bytes_per_sec records,
TimeRemaining never reports an estimate while paused. -/
theorem C10_time_remaining_guarded (d : DownloadItem) :
    (d.total_bytes ≤ 0 ∨ currentSpeed d = 0 → timeRemaining d = none) ∧
    (d.is_paused = true → currentSpeed d = 0 ∧ timeRemaining d = none) := by
  constructor
  · intro h
    unfold timeRemaining
    rcases h with h | h
    · simp [h]
    · simp [h]
  · intro hp
    have hs : currentSpeed d = 0 := by simp [currentSpeed, hp]
    refine ⟨hs, ?_⟩
    unfold timeRemaining
    simp [hs]

/-- Witness for C10 at a concrete paused item with a recorded rate. -/
theorem C10_time_remaining_guarded_witness :
    timeRemaining { activeItem 1000 with is_paused := true, bytes_per_sec := 77 } =
      none :=
  ((C10_time_remaining_guarded
      { activeItem 1000 with is_paused := true, bytes_per_sec := 77 }).2 rfl).2

/-- A concrete environment with every delegate gate open and the
resumption feature enabled. -/
def defaultEnv : Env :=
  { resumption_enabled := true
    has_web_contents := true
    should_complete_download := true
    should_open_download := true
    should_open_file_based_on_extension := false
    now := 0 }

/-- A concrete in-progress item with all data saved, a dangerous-file
classification, and target and intermediate path in one directory. -/
def dangerousFileItem : DownloadItem :=
  { activeItem 100 with
      all_data_saved := true
      danger_type := DownloadDangerType.DANGEROUS_FILE
      target_path := ["downloads", "a.exe"]
      current_path := ["downloads", "a.exe.crdownload"]
      has_download_file := true }

/-- C4: IsDownloadReadyForCompletion is true exactly when all data is
saved, the item is not flagged dangerous (user-validated is not
dangerous), the internal state is IN_PROGRESS, the target path is
known, target and current path share a parent directory, and the
delegate completion gate is open; consequently a dangerous-file
classification makes MaybeCompleteDownload a no-op even with all data
saved, and DangerousDownloadValidated reclassifies to user-validated
and re-invokes the gate, letting completion proceed to the final
rename. -/
theorem C4_ready_for_completion_gate :
    (∀ (env : Env) (d : DownloadItem),
      isDownloadReadyForCompletion env d = true ↔
        (d.all_data_saved = true ∧ isDangerous d = false ∧
         d.state = IN_PROGRESS_INTERNAL ∧
         FilePath.isEmpty d.target_path = false ∧
         FilePath.dirName d.target_path = FilePath.dirName d.current_path ∧
         env.should_complete_download = true)) ∧
    maybeCompleteDownload defaultEnv dangerousFileItem = (dangerousFileItem, []) ∧
    (dangerousDownloadValidated defaultEnv dangerousFileItem).1.danger_type =
      DownloadDangerType.USER_VALIDATED ∧
    (dangerousDownloadValidated defaultEnv dangerousFileItem).2 =
      [Action.ObserverUpdate, Action.FileRenameAndAnnotate] := by
  refine ⟨?_, by decide, by decide, by decide⟩
  intro env d
  unfold isDownloadReadyForCompletion
  split <;> try split <;> try split <;> try split <;> try split <;> try split
  all_goals simp_all

/-- Witness for C4: the gate evaluated through the iff at a concrete
ready item. -/
theorem C4_ready_for_completion_gate_witness :
    isDownloadReadyForCompletion defaultEnv
      { dangerousFileItem with danger_type := DownloadDangerType.USER_VALIDATED } =
      true :=
  ((C4_ready_for_completion_gate.1 defaultEnv
      { dangerousFileItem with danger_type := DownloadDangerType.USER_VALIDATED }).2
    (by refine ⟨rfl, by decide, rfl, by decide, by decide, rfl⟩))

/-- C7: while the externally visible state is not IN_PROGRESS, neither
UpdateProgress nor DestinationUpdate mutates anything (in particular
received_bytes, bytes_per_sec and hash_state); while in progress,
UpdateProgress records the bytes so far, falling back to the unknown
total sentinel when they exceed the expected total: from a fresh item
with total 1000, UpdateProgress(500, 100, "") gives 50 percent, and a
following UpdateProgress(1200, 100, "") resets the total to unknown
and the percentage to -1. -/
theorem C7_progress_updates_guarded :
    (∀ (d : DownloadItem) (b s : Int) (hs : String),
      InternalToExternalState d.state ≠ IN_PROGRESS →
        (updateProgress d b s hs).1 = d ∧ (destinationUpdate d b s hs).1 = d) ∧
    percentComplete (updateProgress (activeItem 1000) 500 100 "").1 = 50 ∧
    (updateProgress (updateProgress (activeItem 1000) 500 100 "").1
        1200 100 "").1.total_bytes ≤ 0 ∧
    percentComplete (updateProgress (updateProgress (activeItem 1000) 500 100 "").1
        1200 100 "").1 = -1 := by
  refine ⟨?_, by decide, by decide, by decide⟩
  intro d b s hs hext
  have hint : d.state ≠ IN_PROGRESS_INTERNAL := by
    intro h
    exact hext (by rw [h]; rfl)
  constructor
  · unfold updateProgress
    simp [hint]
  · unfold destinationUpdate
    simp [DownloadItem.IsInProgress, hext]

/-- Witness for C7: a progress update racing a cancel is dropped. -/
theorem C7_progress_updates_guarded_witness :
    (updateProgress { activeItem 1000 with state := CANCELLED_INTERNAL }
        700 10 "h").1 =
      { activeItem 1000 with state := CANCELLED_INTERNAL } :=
  (C7_progress_updates_guarded.1
    { activeItem 1000 with state := CANCELLED_INTERNAL } 700 10 "h"
    (by decide)).1

/-- C6: Cancel is a no-op unless the state is IN_PROGRESS or
INTERRUPTED; when it acts it records the user-cancelled or shutdown
reason, transitions to CANCELLED, cancels the request exactly when the
state was not already INTERRUPTED, and discards the download file when
one is held; and a second Cancel right after a first changes nothing
and emits nothing. -/
theorem C6_cancel_guard_and_idempotent (d : DownloadItem) (u : Bool) :
    (d.state ≠ IN_PROGRESS_INTERNAL ∧ d.state ≠ INTERRUPTED_INTERNAL →
       Cancel d u = (d, [])) ∧
    (d.state = IN_PROGRESS_INTERNAL ∨ d.state = INTERRUPTED_INTERNAL →
       (Cancel d u).1.last_reason =
         (if u then USER_CANCELED else USER_SHUTDOWN) ∧
       (Cancel d u).1.state = CANCELLED_INTERNAL ∧
       (d.state = IN_PROGRESS_INTERNAL → Action.CancelRequest ∈ (Cancel d u).2) ∧
       (d.state = INTERRUPTED_INTERNAL → Action.CancelRequest ∉ (Cancel d u).2) ∧
       (d.is_save_package_download = false → d.has_download_file = true →
          Action.FileCancel ∈ (Cancel d u).2)) ∧
    (∀ u2 : Bool, Cancel (Cancel d u).1 u2 = ((Cancel d u).1, [])) := by
  obtain ⟨sp, cp, tp, td, tb, rb, bps, hh, hst, lm, et, lr, st, dt, ent,
          ip, arc, owc, fer, ao, it, ads, op, ddc, hdf⟩ := d
  cases u <;> cases st <;> cases sp <;> cases hdf <;>
    simp [Cancel, cancelDownloadFile, transitionTo, InternalToExternalState]

/-- Witness for C6: a user cancel of a concrete in-progress item with a
download file transitions to CANCELLED and discards the file. -/
theorem C6_cancel_guard_and_idempotent_witness :
    (Cancel { activeItem 50 with has_download_file := true } true).1.state =
      CANCELLED_INTERNAL ∧
    Action.FileCancel ∈ (Cancel { activeItem 50 with has_download_file := true } true).2 :=
  have h := C6_cancel_guard_and_idempotent
    { activeItem 50 with has_download_file := true } true
  have hact := h.2.1 (Or.inl rfl)
  ⟨hact.2.1, hact.2.2.2.2 rfl rfl⟩

/-- Frame fact: ResumeInterruptedDownload never changes the state. -/
theorem resumeInterrupted_preserves_state (env : Env) (d : DownloadItem) :
    (resumeInterruptedDownload env d).1.state = d.state := by
  simp only [resumeInterruptedDownload]
  split
  · rfl
  split
  · rfl
  split <;> rfl

/-- Frame fact: ResumeInterruptedDownload never changes the recorded
interrupt reason. -/
theorem resumeInterrupted_preserves_last_reason (env : Env) (d : DownloadItem) :
    (resumeInterruptedDownload env d).1.last_reason = d.last_reason := by
  simp only [resumeInterruptedDownload]
  split
  · rfl
  split
  · rfl
  split <;> rfl

/-- Frame fact: ResumeInterruptedDownload never changes
all_data_saved. -/
theorem resumeInterrupted_preserves_all_data_saved (env : Env) (d : DownloadItem) :
    (resumeInterruptedDownload env d).1.all_data_saved = d.all_data_saved := by
  simp only [resumeInterruptedDownload]
  split
  · rfl
  split
  · rfl
  split <;> rfl

/-- Frame fact: ResumeInterruptedDownload never changes the auto
resume counter. -/
theorem resumeInterrupted_preserves_count (env : Env) (d : DownloadItem) :
    (resumeInterruptedDownload env d).1.auto_resume_count = d.auto_resume_count := by
  simp only [resumeInterruptedDownload]
  split
  · rfl
  split
  · rfl
  split <;> rfl

/-- The actions of ResumeInterruptedDownload: nothing, or the delegate
hand-off alone. -/
theorem resumeInterrupted_actions (env : Env) (d : DownloadItem) :
    (resumeInterruptedDownload env d).2 = [] ∨
    (resumeInterruptedDownload env d).2 = [Action.DelegateResume] := by
  simp only [resumeInterruptedDownload]
  split
  · exact Or.inl rfl
  split
  · exact Or.inl rfl
  exact Or.inr rfl

/-- Frame fact: AutoResumeIfValid never changes the state. -/
theorem autoResume_preserves_state (env : Env) (d : DownloadItem) :
    (autoResumeIfValid env d).1.state = d.state := by
  simp only [autoResumeIfValid]
  split
  · rfl
  · exact (resumeInterrupted_preserves_state env _).trans rfl

/-- Frame fact: AutoResumeIfValid never changes the recorded interrupt
reason. -/
theorem autoResume_preserves_last_reason (env : Env) (d : DownloadItem) :
    (autoResumeIfValid env d).1.last_reason = d.last_reason := by
  simp only [autoResumeIfValid]
  split
  · rfl
  · exact (resumeInterrupted_preserves_last_reason env _).trans rfl

/-- Frame fact: AutoResumeIfValid never changes all_data_saved. -/
theorem autoResume_preserves_all_data_saved (env : Env) (d : DownloadItem) :
    (autoResumeIfValid env d).1.all_data_saved = d.all_data_saved := by
  simp only [autoResumeIfValid]
  split
  · rfl
  · exact (resumeInterrupted_preserves_all_data_saved env _).trans rfl

/-- The actions of AutoResumeIfValid: nothing, or the delegate
hand-off alone. -/
theorem autoResume_actions (env : Env) (d : DownloadItem) :
    (autoResumeIfValid env d).2 = [] ∨
    (autoResumeIfValid env d).2 = [Action.DelegateResume] := by
  simp only [autoResumeIfValid]
  split
  · exact Or.inl rfl
  · exact resumeInterrupted_actions env _

/-- Frame fact: CancelDownloadFile changes only the file ownership
flag. -/
theorem cancelDownloadFile_fst (d : DownloadItem) :
    (cancelDownloadFile d).1 =
      { d with has_download_file := (cancelDownloadFile d).1.has_download_file } := by
  simp only [cancelDownloadFile]
  split <;> rfl

/-- The actions of CancelDownloadFile: the posted cancel-and-delete
exactly when a file is held outside a save package download. -/
theorem cancelDownloadFile_actions (d : DownloadItem) :
    (cancelDownloadFile d).2 =
      if (!d.is_save_package_download && d.has_download_file) = true
      then [Action.FileCancel] else [] := by
  simp only [cancelDownloadFile]
  split <;> simp_all

/-- C2: Interrupt is a no-op outside internal IN_PROGRESS (the first
interrupt wins and later ones change neither the state nor the
recorded reason); from IN_PROGRESS it records the reason, transitions
to INTERRUPTED, cancels (deletes) the download file when the resume
mode computed on the interrupted item restarts from scratch and
detaches it to keep the partial file otherwise, and in both cases
cancels the originating request. -/
theorem C2_interrupt (env : Env) (d : DownloadItem)
    (reason : DownloadInterruptReason) :
    (d.state ≠ IN_PROGRESS_INTERNAL → Interrupt env d reason = (d, [])) ∧
    (d.state = IN_PROGRESS_INTERNAL →
       (Interrupt env d reason).1.last_reason = reason ∧
       (Interrupt env d reason).1.state = INTERRUPTED_INTERNAL ∧
       Action.CancelRequest ∈ (Interrupt env d reason).2 ∧
       (∀ m, m = getResumeMode { d with last_reason := reason,
                                        state := INTERRUPTED_INTERNAL } →
         ((m = RESUME_MODE_IMMEDIATE_RESTART ∨ m = RESUME_MODE_USER_RESTART) →
            Action.FileDetach ∉ (Interrupt env d reason).2 ∧
            (d.is_save_package_download = false → d.has_download_file = true →
               Action.FileCancel ∈ (Interrupt env d reason).2)) ∧
         (¬(m = RESUME_MODE_IMMEDIATE_RESTART ∨ m = RESUME_MODE_USER_RESTART) →
            Action.FileDetach ∈ (Interrupt env d reason).2 ∧
            Action.FileCancel ∉ (Interrupt env d reason).2))) := by
  constructor
  · intro h
    unfold Interrupt
    simp [h]
  · intro h
    have h1 : transitionTo { d with last_reason := reason } INTERRUPTED_INTERNAL =
        ({ d with last_reason := reason, state := INTERRUPTED_INTERNAL },
         [Action.ObserverUpdate]) := by
      unfold transitionTo
      simp [h, InternalToExternalState]
    have hIf : ¬(d.state ≠ IN_PROGRESS_INTERNAL) := by simp [h]
    simp only [Interrupt, if_neg hIf, h1]
    by_cases hm :
        getResumeMode { d with last_reason := reason, state := INTERRUPTED_INTERNAL } =
          RESUME_MODE_IMMEDIATE_RESTART ∨
        getResumeMode { d with last_reason := reason, state := INTERRUPTED_INTERNAL } =
          RESUME_MODE_USER_RESTART
    · simp only [if_pos hm]
      refine ⟨?_, ?_, ?_, ?_⟩
      · rw [autoResume_preserves_last_reason, cancelDownloadFile_fst]
      · rw [autoResume_preserves_state, cancelDownloadFile_fst]
      · simp [List.mem_append]
      · intro m hmeq
        subst hmeq
        refine ⟨fun _ => ⟨?_, fun hsp hdf => ?_⟩, fun hc => absurd hm hc⟩
        · rcases autoResume_actions env
            (cancelDownloadFile
              { d with last_reason := reason, state := INTERRUPTED_INTERNAL }).1
            with ha | ha <;>
          rw [cancelDownloadFile_actions] at * <;>
            · intro hmem
              simp only [List.mem_append, ha, List.mem_singleton,
                         List.mem_cons, List.not_mem_nil] at hmem
              rcases hmem with hx | hx | hx | hx <;> first
                | exact absurd hx (by split <;> simp)
                | simp_all
        · rw [cancelDownloadFile_actions]
          simp [hsp, hdf, List.mem_append]
    · simp only [if_neg hm]
      refine ⟨?_, ?_, ?_, ?_⟩
      · rw [autoResume_preserves_last_reason]
      · rw [autoResume_preserves_state]
      · simp [List.mem_append]
      · intro m hmeq
        subst hmeq
        refine ⟨fun hr => absurd hr hm, fun _ => ⟨by simp [List.mem_append], ?_⟩⟩
        rcases autoResume_actions env
            { d with last_reason := reason, state := INTERRUPTED_INTERNAL,
                     has_download_file := false }
          with ha | ha <;>
          · intro hmem
            simp only [List.mem_append, ha, List.mem_singleton,
                       List.mem_cons, List.not_mem_nil] at hmem
            rcases hmem with hx | hx | hx | hx <;> simp_all

/-- Witness for C2: a network timeout interrupt of a concrete fresh
in-progress item records the reason, lands in INTERRUPTED and cancels
the request. -/
theorem C2_interrupt_witness :
    (Interrupt defaultEnv { activeItem 10 with has_download_file := true }
        NETWORK_TIMEOUT).1.state = INTERRUPTED_INTERNAL ∧
    Action.CancelRequest ∈
      (Interrupt defaultEnv { activeItem 10 with has_download_file := true }
        NETWORK_TIMEOUT).2 :=
  have h := (C2_interrupt defaultEnv { activeItem 10 with has_download_file := true }
    NETWORK_TIMEOUT).2 rfl
  ⟨h.2.1, h.2.2.1⟩

/-- One automatic-resumption round trip of the C3 scenario: a network
timeout interrupt followed by the delegate re-starting the download
(Start is what the download manager calls when the new request is
up). -/
def timeoutCycle (d : DownloadItem) : DownloadItem :=
  (Start ((Interrupt defaultEnv d NETWORK_TIMEOUT).1)).1

/-- The C3 scenario item: five consecutive network timeout interrupts
with no intermediate file, each auto-resumed. -/
def exhaustedItem : DownloadItem :=
  Nat.iterate timeoutCycle 5 (activeItem 1000)

/-- C3: automatic resumption happens only for the two immediate resume
modes, and then the auto-resume counter is incremented before the
resumption procedure runs; for the user modes and INVALID nothing
happens and the counter is unchanged; and in the concrete scenario,
after five network timeout interrupts with no intermediate file have
driven the counter to the cap of 5, the sixth interrupt leaves the
item INTERRUPTED with resume mode USER_RESTART, an unchanged counter,
and no delegate hand-off. -/
theorem C3_auto_resume_cap :
    (∀ (env : Env) (d : DownloadItem),
       ¬(getResumeMode d = RESUME_MODE_IMMEDIATE_RESTART ∨
         getResumeMode d = RESUME_MODE_IMMEDIATE_CONTINUE) →
         autoResumeIfValid env d = (d, [])) ∧
    (∀ (env : Env) (d : DownloadItem),
       (getResumeMode d = RESUME_MODE_IMMEDIATE_RESTART ∨
        getResumeMode d = RESUME_MODE_IMMEDIATE_CONTINUE) →
         autoResumeIfValid env d =
           resumeInterruptedDownload env
             { d with auto_resume_count := d.auto_resume_count + 1 }) ∧
    Action.DelegateResume ∈
      (Interrupt defaultEnv (activeItem 1000) NETWORK_TIMEOUT).2 ∧
    exhaustedItem.auto_resume_count = kMaxAutoResumeAttempts ∧
    (Interrupt defaultEnv exhaustedItem NETWORK_TIMEOUT).1.state =
      INTERRUPTED_INTERNAL ∧
    getResumeMode (Interrupt defaultEnv exhaustedItem NETWORK_TIMEOUT).1 =
      RESUME_MODE_USER_RESTART ∧
    (Interrupt defaultEnv exhaustedItem NETWORK_TIMEOUT).1.auto_resume_count =
      kMaxAutoResumeAttempts ∧
    Action.DelegateResume ∉
      (Interrupt defaultEnv exhaustedItem NETWORK_TIMEOUT).2 := by
  refine ⟨?_, ?_, by decide, by decide, by decide, by decide, by decide, by decide⟩
  · intro env d h
    simp only [autoResumeIfValid]
    rw [if_pos ⟨fun hc => h (Or.inl hc), fun hc => h (Or.inr hc)⟩]
  · intro env d h
    simp only [autoResumeIfValid]
    rw [if_neg (fun hc => hc.elim (fun h1 h2 => h.elim h1 h2))]

/-- Witness for C3: no automatic resumption for a fresh in-progress
item, whose resume mode is INVALID. -/
theorem C3_auto_resume_cap_witness :
    autoResumeIfValid defaultEnv (activeItem 1000) = (activeItem 1000, []) :=
  C3_auto_resume_cap.1 defaultEnv (activeItem 1000) (by decide)

/-- C5, failing input: a concrete item paused while in progress and
then cancelled is in the terminal CANCELLED state with the paused flag
still set; the claim (and the DCHECK in Resume, line 342, which this
state violates) says manual Resume is then a no-op, yet the code
resumes the underlying request and clears the paused flag, because the
early-out guard of Resume checks only COMPLETE, COMPLETING and the
paused flag, never CANCELLED. -/
theorem C5_resume_acts_on_cancelled_paused_item :
    ((Cancel (Pause (activeItem 1000)).1 true).1.state = CANCELLED_INTERNAL ∧
     (Cancel (Pause (activeItem 1000)).1 true).1.is_paused = true) ∧
    (Resume defaultEnv (Cancel (Pause (activeItem 1000)).1 true).1).1.is_paused =
      false ∧
    Action.ResumeRequest ∈
      (Resume defaultEnv (Cancel (Pause (activeItem 1000)).1 true).1).2 := by
  decide

/-- Frame fact: TransitionTo never changes all_data_saved. -/
theorem transitionTo_preserves_ads (d : DownloadItem) (s : DownloadInternalState) :
    (transitionTo d s).1.all_data_saved = d.all_data_saved := by
  simp only [transitionTo]
  split
  · rfl
  split <;> rfl

/-- Frame fact: Pause never changes all_data_saved. -/
theorem pause_preserves_ads (d : DownloadItem) :
    (Pause d).1.all_data_saved = d.all_data_saved := by
  simp only [Pause]
  split <;> rfl

/-- Frame fact: Resume never changes all_data_saved. -/
theorem resume_preserves_ads (env : Env) (d : DownloadItem) :
    (Resume env d).1.all_data_saved = d.all_data_saved := by
  simp only [Resume]
  split
  · rfl
  split
  · exact (resumeInterrupted_preserves_all_data_saved env _).trans rfl
  · rfl

/-- Frame fact: Interrupt never changes all_data_saved. -/
theorem interrupt_preserves_ads (env : Env) (d : DownloadItem)
    (reason : DownloadInterruptReason) :
    (Interrupt env d reason).1.all_data_saved = d.all_data_saved := by
  simp only [Interrupt]
  split
  · rfl
  rw [autoResume_preserves_all_data_saved]
  split
  · rw [cancelDownloadFile_fst]
    simp [transitionTo_preserves_ads]
  · simp [transitionTo_preserves_ads]

/-- Frame fact: Cancel never changes all_data_saved. -/
theorem cancel_preserves_ads (d : DownloadItem) (u : Bool) :
    (Cancel d u).1.all_data_saved = d.all_data_saved := by
  simp only [Cancel]
  split
  · rfl
  rw [transitionTo_preserves_ads, cancelDownloadFile_fst]

/-- Frame fact: UpdateProgress never changes all_data_saved. -/
theorem updateProgress_preserves_ads (d : DownloadItem) (b s : Int) (hs : String) :
    (updateProgress d b s hs).1.all_data_saved = d.all_data_saved := by
  simp only [updateProgress]
  split
  · rfl
  split <;> rfl

/-- Frame fact: DestinationUpdate never changes all_data_saved. -/
theorem destinationUpdate_preserves_ads (d : DownloadItem) (b s : Int) (hs : String) :
    (destinationUpdate d b s hs).1.all_data_saved = d.all_data_saved := by
  simp only [destinationUpdate]
  split
  · rfl
  split <;> rfl

/-- Frame fact: MarkAsComplete never changes all_data_saved. -/
theorem markAsComplete_preserves_ads (env : Env) (d : DownloadItem) :
    (markAsComplete env d).1.all_data_saved = d.all_data_saved := by
  simp only [markAsComplete]
  rw [transitionTo_preserves_ads]

/-- Frame fact: OpenDownload never changes all_data_saved. -/
theorem openDownload_preserves_ads (d : DownloadItem) :
    (openDownload d).1.all_data_saved = d.all_data_saved := by
  simp only [openDownload]
  split
  · split <;> rfl
  split
  · rfl
  · rfl

/-- Frame fact: Completed never changes all_data_saved. -/
theorem completed_preserves_ads (env : Env) (d : DownloadItem) :
    (completed env d).1.all_data_saved = d.all_data_saved := by
  simp only [completed]
  split
  · rw [transitionTo_preserves_ads]
  split
  · have h2 : ∀ e : DownloadItem,
        ((if !e.is_temporary then openDownload e else (e, [])).1).all_data_saved =
          e.all_data_saved := by
      intro e
      split
      · exact openDownload_preserves_ads e
      · rfl
    simp only [h2]
    rw [transitionTo_preserves_ads]
  · rw [transitionTo_preserves_ads]

/-- Frame fact: DelayedDownloadOpened never changes all_data_saved. -/
theorem delayedDownloadOpened_preserves_ads (env : Env) (d : DownloadItem) (b : Bool) :
    (delayedDownloadOpened env d b).1.all_data_saved = d.all_data_saved := by
  simp only [delayedDownloadOpened]
  rw [completed_preserves_ads]

/-- Frame fact: OnDownloadCompleting never changes all_data_saved. -/
theorem onDownloadCompleting_preserves_ads (env : Env) (d : DownloadItem) :
    (onDownloadCompleting env d).1.all_data_saved = d.all_data_saved := by
  simp only [onDownloadCompleting]
  split
  · rfl
  split
  · exact completed_preserves_ads env d
  · rfl

/-- Frame fact: MaybeCompleteDownload never changes all_data_saved. -/
theorem maybeCompleteDownload_preserves_ads (env : Env) (d : DownloadItem) :
    (maybeCompleteDownload env d).1.all_data_saved = d.all_data_saved := by
  simp only [maybeCompleteDownload]
  split
  · rfl
  · exact onDownloadCompleting_preserves_ads env d

/-- Frame fact: DangerousDownloadValidated never changes
all_data_saved. -/
theorem dangerousDownloadValidated_preserves_ads (env : Env) (d : DownloadItem) :
    (dangerousDownloadValidated env d).1.all_data_saved = d.all_data_saved := by
  simp only [dangerousDownloadValidated]
  split
  · rfl
  · rw [maybeCompleteDownload_preserves_ads]

/-- Frame fact: SetFullPath never changes all_data_saved. -/
theorem setFullPath_preserves_ads (d : DownloadItem) (p : FilePath) :
    (setFullPath d p).1.all_data_saved = d.all_data_saved := rfl

/-- Frame fact: OnDownloadRenamedToFinalName never changes
all_data_saved. -/
theorem onDownloadRenamedToFinalName_preserves_ads (env : Env) (d : DownloadItem)
    (reason : DownloadInterruptReason) (p : FilePath) :
    (onDownloadRenamedToFinalName env d reason p).1.all_data_saved =
      d.all_data_saved := by
  simp only [onDownloadRenamedToFinalName]
  split
  · rfl
  split
  · exact interrupt_preserves_ads env d _
  have h1 : ((if p ≠ d.current_path then setFullPath d p else (d, [])).1).all_data_saved
      = d.all_data_saved := by
    split
    · exact setFullPath_preserves_ads d p
    · rfl
  split
  · rw [completed_preserves_ads, transitionTo_preserves_ads]
    exact h1
  · rw [show (⟨_, _⟩ : DownloadItem × List Action).1.all_data_saved = _ from rfl]
    rw [transitionTo_preserves_ads]
    exact h1

/-- Frame fact: OnDownloadRenamedToIntermediateName never changes
all_data_saved. -/
theorem onDownloadRenamedToIntermediateName_preserves_ads (env : Env)
    (d : DownloadItem) (reason : DownloadInterruptReason) (p : FilePath) :
    (onDownloadRenamedToIntermediateName env d reason p).1.all_data_saved =
      d.all_data_saved := by
  simp only [onDownloadRenamedToIntermediateName]
  rw [maybeCompleteDownload_preserves_ads]
  split
  · exact interrupt_preserves_ads env d _
  · exact setFullPath_preserves_ads d p

/-- Frame fact: OnDownloadTargetDetermined never changes
all_data_saved. -/
theorem onDownloadTargetDetermined_preserves_ads (d : DownloadItem)
    (target : FilePath) (disp : TargetDisposition) (danger : DownloadDangerType) :
    (onDownloadTargetDetermined d target disp danger).1.all_data_saved =
      d.all_data_saved := by
  simp only [onDownloadTargetDetermined]
  split
  · exact cancel_preserves_ads d true
  · rfl

/-- Frame fact: OnDownloadFileInitialized never changes
all_data_saved. -/
theorem onDownloadFileInitialized_preserves_ads (env : Env) (d : DownloadItem)
    (result : DownloadInterruptReason) :
    (onDownloadFileInitialized env d result).1.all_data_saved =
      d.all_data_saved := by
  simp only [onDownloadFileInitialized]
  split
  · split
    · show (maybeCompleteDownload env (Interrupt env d result).1).1.all_data_saved =
        d.all_data_saved
      rw [maybeCompleteDownload_preserves_ads]
      exact interrupt_preserves_ads env d result
    · exact interrupt_preserves_ads env d result
  · split
    · show (maybeCompleteDownload env d).1.all_data_saved = d.all_data_saved
      rw [maybeCompleteDownload_preserves_ads]
    · rfl

/-- Frame fact: Start never changes all_data_saved. -/
theorem start_preserves_ads (d : DownloadItem) :
    (Start d).1.all_data_saved = d.all_data_saved := by
  simp only [Start]
  rw [show ({ (transitionTo { d with has_download_file := true }
      IN_PROGRESS_INTERNAL).1 with last_reason := NONE } : DownloadItem).all_data_saved
    = (transitionTo { d with has_download_file := true }
        IN_PROGRESS_INTERNAL).1.all_data_saved from rfl]
  rw [transitionTo_preserves_ads]

/-- OnAllDataSaved always leaves all_data_saved true. -/
theorem onAllDataSaved_sets_ads (d : DownloadItem) (hs : String) :
    (onAllDataSaved d hs).1.all_data_saved = true := rfl

/-- DestinationCompleted leaves all_data_saved true or untouched. -/
theorem destinationCompleted_ads (env : Env) (d : DownloadItem) (hs : String) :
    (destinationCompleted env d hs).1.all_data_saved = true ∨
    (destinationCompleted env d hs).1.all_data_saved = d.all_data_saved := by
  simp only [destinationCompleted]
  split
  · exact Or.inr rfl
  · rw [maybeCompleteDownload_preserves_ads]
    exact Or.inl rfl

/-- Frame fact: Init only defaults the target path. -/
theorem initItem_preserves_ads (d : DownloadItem) :
    (initItem d).all_data_saved = d.all_data_saved := by
  simp only [initItem]
  split <;> rfl

/-- The modelled mutating operations of the state machine, as events:
one constructor per member function, carrying its arguments. -/
inductive Event where
  | evStart
  | evPause
  | evResume
  | evCancel (user_cancel : Bool)
  | evInterrupt (reason : DownloadInterruptReason)
  | evUpdateProgress (bytes_so_far bytes_per_sec : Int) (hash_state : String)
  | evDestinationUpdate (bytes_so_far bytes_per_sec : Int) (hash_state : String)
  | evDestinationError (reason : DownloadInterruptReason)
  | evDestinationCompleted (final_hash : String)
  | evOnAllDataSaved (final_hash : String)
  | evMarkAsComplete
  | evMaybeCompleteDownload
  | evDangerousDownloadValidated
  | evOnDownloadFileInitialized (result : DownloadInterruptReason)
  | evOnDownloadTargetDetermined (target : FilePath) (disp : TargetDisposition)
      (danger : DownloadDangerType)
  | evOnDownloadRenamedToIntermediateName (reason : DownloadInterruptReason)
      (p : FilePath)
  | evOnDownloadRenamedToFinalName (reason : DownloadInterruptReason) (p : FilePath)
  | evDelayedDownloadOpened (auto_opened : Bool)
  | evOpenDownload
  | evSetTotalBytes (total : Int)
  | evOnContentCheckCompleted (danger : DownloadDangerType)
  | evOnDownloadedFileRemoved
deriving DecidableEq, Repr

/-- Dispatch of an event to the member function it names. -/
def step (env : Env) (e : Event) (d : DownloadItem) : DownloadItem × List Action :=
  match e with
  | .evStart => Start d
  | .evPause => Pause d
  | .evResume => Resume env d
  | .evCancel u => Cancel d u
  | .evInterrupt r => Interrupt env d r
  | .evUpdateProgress b s hs => updateProgress d b s hs
  | .evDestinationUpdate b s hs => destinationUpdate d b s hs
  | .evDestinationError r => destinationError env d r
  | .evDestinationCompleted hs => destinationCompleted env d hs
  | .evOnAllDataSaved hs => onAllDataSaved d hs
  | .evMarkAsComplete => markAsComplete env d
  | .evMaybeCompleteDownload => maybeCompleteDownload env d
  | .evDangerousDownloadValidated => dangerousDownloadValidated env d
  | .evOnDownloadFileInitialized r => onDownloadFileInitialized env d r
  | .evOnDownloadTargetDetermined t disp dt => onDownloadTargetDetermined d t disp dt
  | .evOnDownloadRenamedToIntermediateName r p =>
      onDownloadRenamedToIntermediateName env d r p
  | .evOnDownloadRenamedToFinalName r p => onDownloadRenamedToFinalName env d r p
  | .evDelayedDownloadOpened b => delayedDownloadOpened env d b
  | .evOpenDownload => openDownload d
  | .evSetTotalBytes t => (setTotalBytes d t, [])
  | .evOnContentCheckCompleted dt => onContentCheckCompleted d dt
  | .evOnDownloadedFileRemoved => onDownloadedFileRemoved d

/-- Every step either leaves all_data_saved exactly as it was, or
leaves it true while being an OnAllDataSaved or DestinationCompleted
event (the latter delegates to OnAllDataSaved). -/
theorem step_ads_cases (env : Env) (e : Event) (d : DownloadItem) :
    (step env e d).1.all_data_saved = d.all_data_saved ∨
    ((step env e d).1.all_data_saved = true ∧
      ((∃ hs, e = Event.evOnAllDataSaved hs) ∨
       (∃ hs, e = Event.evDestinationCompleted hs))) := by
  cases e
  case evStart => exact Or.inl (start_preserves_ads d)
  case evPause => exact Or.inl (pause_preserves_ads d)
  case evResume => exact Or.inl (resume_preserves_ads env d)
  case evCancel u => exact Or.inl (cancel_preserves_ads d u)
  case evInterrupt r => exact Or.inl (interrupt_preserves_ads env d r)
  case evUpdateProgress b s hs => exact Or.inl (updateProgress_preserves_ads d b s hs)
  case evDestinationUpdate b s hs =>
    exact Or.inl (destinationUpdate_preserves_ads d b s hs)
  case evDestinationError r => exact Or.inl (interrupt_preserves_ads env d r)
  case evDestinationCompleted hs =>
    rcases destinationCompleted_ads env d hs with hx | hx
    · exact Or.inr ⟨hx, Or.inr ⟨hs, rfl⟩⟩
    · exact Or.inl hx
  case evOnAllDataSaved hs =>
    exact Or.inr ⟨onAllDataSaved_sets_ads d hs, Or.inl ⟨hs, rfl⟩⟩
  case evMarkAsComplete => exact Or.inl (markAsComplete_preserves_ads env d)
  case evMaybeCompleteDownload =>
    exact Or.inl (maybeCompleteDownload_preserves_ads env d)
  case evDangerousDownloadValidated =>
    exact Or.inl (dangerousDownloadValidated_preserves_ads env d)
  case evOnDownloadFileInitialized r =>
    exact Or.inl (onDownloadFileInitialized_preserves_ads env d r)
  case evOnDownloadTargetDetermined t disp dt =>
    exact Or.inl (onDownloadTargetDetermined_preserves_ads d t disp dt)
  case evOnDownloadRenamedToIntermediateName r p =>
    exact Or.inl (onDownloadRenamedToIntermediateName_preserves_ads env d r p)
  case evOnDownloadRenamedToFinalName r p =>
    exact Or.inl (onDownloadRenamedToFinalName_preserves_ads env d r p)
  case evDelayedDownloadOpened b =>
    exact Or.inl (delayedDownloadOpened_preserves_ads env d b)
  case evOpenDownload => exact Or.inl (openDownload_preserves_ads d)
  case evSetTotalBytes t => exact Or.inl rfl
  case evOnContentCheckCompleted dt => exact Or.inl rfl
  case evOnDownloadedFileRemoved => exact Or.inl rfl

/-- C8: all_data_saved is monotonic - once true, no modelled operation
of the state machine makes it false again; a step can raise it from
false to true only through OnAllDataSaved (called directly or by
DestinationCompleted, which delegates to it); and the history
constructor sets it exactly for a persisted COMPLETE item. -/
theorem C8_all_data_saved_monotonic :
    (∀ (env : Env) (e : Event) (d : DownloadItem),
       d.all_data_saved = true → (step env e d).1.all_data_saved = true) ∧
    (∀ (env : Env) (e : Event) (d : DownloadItem),
       (step env e d).1.all_data_saved = true →
         d.all_data_saved = true ∨
         (∃ hs, e = Event.evOnAllDataSaved hs) ∨
         (∃ hs, e = Event.evDestinationCompleted hs)) ∧
    (∀ (cur tgt : FilePath) (rcv tot ent : Int) (ext : DownloadState)
       (danger : DownloadDangerType) (reason : DownloadInterruptReason) (op : Bool),
       (historyItem cur tgt rcv tot ent ext danger reason op).all_data_saved =
         decide (ext = COMPLETE)) := by
  refine ⟨?_, ?_, ?_⟩
  · intro env e d h
    rcases step_ads_cases env e d with hx | ⟨hx, _⟩
    · exact hx.trans h
    · exact hx
  · intro env e d h
    rcases step_ads_cases env e d with hx | ⟨_, hsp⟩
    · exact Or.inl (hx.symm.trans h)
    · exact Or.inr hsp
  · intro cur tgt rcv tot ent ext danger reason op
    simp only [historyItem]
    rw [initItem_preserves_ads]
    cases ext <;> simp [ExternalToInternalState]

/-- Witness for C8: one step (an interrupt) of a concrete item with all
data saved keeps the flag true. -/
theorem C8_all_data_saved_monotonic_witness :
    (step defaultEnv (Event.evInterrupt NETWORK_FAILED)
        { activeItem 10 with all_data_saved := true }).1.all_data_saved = true :=
  C8_all_data_saved_monotonic.1 defaultEnv (Event.evInterrupt NETWORK_FAILED)
    { activeItem 10 with all_data_saved := true } rfl

end Content
